import Mathlib

/-!
Verification of the Neurone relay/dispatch core as implemented by the
Chrome extension background service worker (`extension/background.js`).

The embedding models the agent-side components the specification calls
Dispatch Registry, Agent Session and Reconnection Supervisor:

* JSON messages are `Value`s; JavaScript's loose field access, `||` and
  `??` operators are modelled by `Value.getFieldD`, `jsOr` and `jsNullish`.
  JavaScript distinguishes `undefined` from `null`; both are falsy and
  nullish, and no code path modelled here tells them apart, so both are
  collapsed to `Value.vnull` (an absent field reads as `vnull` through
  `getFieldD`).
* A tool handler either returns a value or throws; `ToolOutcome` makes the
  two cases explicit.  Functions whose JavaScript originals could let an
  exception escape are embedded into `Except String _`, where `.error m`
  stands for an uncaught exception carrying message `m`.
* The mutable fields of `NeuroneWSClient` become `WSClientState`;
  `chrome.storage.local` becomes `LocalStorage`; event handlers become
  state transformers that also return the list of messages passed to the
  transport (in program order).
-/

/-- JSON-like values exchanged over the WebSocket.  Numbers are modelled as
integers (no message field of the relay protocol carries a fraction). -/
inductive Value where
  | vnull : Value
  | vbool : Bool → Value
  | vnum : Int → Value
  | vstr : String → Value
  | varr : List Value → Value
  | vobj : List (String × Value) → Value

/-- Property access `obj[k]` on an object: first binding of the key, `none`
when the key is absent or the value is not an object (JS `undefined`). -/
def Value.getField : Value → String → Option Value
  | Value.vobj fs, k => (fs.find? (fun p => p.1 == k)).map (fun p => p.2)
  | _, _ => none

/-- Property access with absent collapsed to `vnull` (see header note on
`undefined`/`null`). -/
def Value.getFieldD (v : Value) (k : String) : Value :=
  (v.getField k).getD Value.vnull

/-- JavaScript truthiness of a value (`NaN` is not representable here;
`0`, `""`, `null`/`undefined` and `false` are the falsy cases). -/
def truthy : Value → Bool
  | Value.vnull => false
  | Value.vbool b => b
  | Value.vnum n => n != 0
  | Value.vstr s => s != ""
  | Value.varr _ => true
  | Value.vobj _ => true

/-- JavaScript `a || b`. -/
def jsOr (a b : Value) : Value :=
  if truthy a then a else b

/-- JavaScript `a ?? b` on possibly-absent values: `none` is `undefined`,
`some vnull` is `null`, both select `b`. -/
def jsNullish (a b : Option Value) : Option Value :=
  match a with
  | none => b
  | some Value.vnull => b
  | some v => some v

/-- String conversion as used by the template literal ``未知工具: ${name}``.
Only the string case is exercised by genuine tool names; array and object
conversion are approximated (arrays join their elements in JS, objects print
"[object Object]") and are not relied on by any theorem below. -/
def jsStringOf : Value → String
  | Value.vnull => "undefined"
  | Value.vbool b => if b then "true" else "false"
  | Value.vnum n => toString n
  | Value.vstr s => s
  | Value.varr _ => ""
  | Value.vobj _ => "[object Object]"

/-- Strict equality `v === "s"` against a string literal. -/
def isStr (v : Value) (s : String) : Bool :=
  match v with
  | Value.vstr t => t == s
  | _ => false

/-- Outcome of invoking a tool handler: the handler either returns a value
or throws.  A thrown JS value is represented by the message string that
`executeTool`'s catch block derives from it
(`err instanceof Error ? err.message : String(err)`). -/
inductive ToolOutcome where
  | ret : Value → ToolOutcome
  | thrown : String → ToolOutcome

/-- A registered tool: `background.js` class `BaseTool` and subclasses,
reduced to the interface `executeTool` uses — a name and an `execute`
method. -/
structure BaseTool where
  name : String
  execute : Value → ToolOutcome

/-- `registerTool`: `toolRegistry.set(tool.name, tool)` — replaces an
existing binding of the same name in place, otherwise appends
(`Map.set` insertion-order semantics). -/
def registerTool (registry : List BaseTool) (t : BaseTool) : List BaseTool :=
  if registry.any (fun u => u.name == t.name) then
    registry.map (fun u => if u.name == t.name then t else u)
  else
    registry ++ [t]

/-- `toolRegistry.get(name)`: the map key is the tool's name (a string), so
a lookup succeeds exactly when `name` is that string. -/
def lookupTool (registry : List BaseTool) (name : Value) : Option BaseTool :=
  registry.find? (fun t =>
    match name with
    | Value.vstr s => t.name == s
    | _ => false)

/-- `Array.from(toolRegistry.keys())`: registered tool names in insertion
order. -/
def registryNames (registry : List BaseTool) : List String :=
  registry.map (fun t => t.name)

/-- The error result object `executeTool` builds:
`\x7b content: [\x7b type: 'error', text \x7d], isError: true \x7d`. -/
def errorResult (text : String) : Value :=
  Value.vobj
    [("content", Value.varr [Value.vobj
        [("type", Value.vstr "error"), ("text", Value.vstr text)]]),
     ("isError", Value.vbool true)]

/-- Result of `executeTool`, instrumented with which handler (if any) ran;
`result` is exactly the value the JavaScript function returns. -/
structure ExecOutcome where
  result : Value
  handlerRan : Option String

/-- `executeTool(\x7bname, args\x7d)` from `background.js`: look the name up in
the registry; unknown names yield the `未知工具` error object; a handler
that throws is caught and its message wrapped in an error object.  The
`Except` codomain records whether an exception escapes the function: no
branch produces `.error`, which is the content of the surrounding
`try/catch`. -/
def executeTool (registry : List BaseTool) (name args : Value) :
    Except String ExecOutcome :=
  match lookupTool registry name with
  | none =>
      Except.ok { result := errorResult ("未知工具: " ++ jsStringOf name),
                  handlerRan := none }
  | some tool =>
      match tool.execute args with
      | ToolOutcome.ret v =>
          Except.ok { result := v, handlerRan := some tool.name }
      | ToolOutcome.thrown m =>
          Except.ok { result := errorResult m, handlerRan := some tool.name }

/-- `WebSocket.readyState` values. -/
inductive ReadyState where
  | CONNECTING : ReadyState
  | OPEN : ReadyState
  | CLOSING : ReadyState
  | CLOSED : ReadyState

/-- The mutable fields of `NeuroneWSClient`.  The socket is represented by
its ready state (`none` = `this.socket === null`); `reconnectTimer` records
whether a reconnection timeout is scheduled. -/
structure WSClientState where
  socket : Option ReadyState
  shouldReconnect : Bool
  reconnectTimer : Bool
  currentUrl : Option String

/-- `isConnected()`: `this.socket?.readyState === WebSocket.OPEN`. -/
def isConnected (st : WSClientState) : Bool :=
  match st.socket with
  | some ReadyState.OPEN => true
  | _ => false

/-- `send(obj)`: returns the list of frames actually written to the
transport — empty when the socket is absent or not OPEN (the early
`return`), a single frame otherwise. -/
def send (st : WSClientState) (msg : Value) : List Value :=
  if isConnected st then [msg] else []

/-- The correlation identifier `_handleToolCall` extracts:
`msg.requestId ?? msg.id`. -/
def callCorrelationId (msg : Value) : Option Value :=
  jsNullish (msg.getField "requestId") (msg.getField "id")

/-- `const payload = msg.payload || msg.params || \x7b\x7d`. -/
def callPayload (msg : Value) : Value :=
  jsOr (msg.getFieldD "payload") (jsOr (msg.getFieldD "params") (Value.vobj []))

/-- `const name = payload.name || payload.method`. -/
def callName (msg : Value) : Value :=
  jsOr ((callPayload msg).getFieldD "name") ((callPayload msg).getFieldD "method")

/-- `const args = payload.args || payload.params || \x7b\x7d`. -/
def callArgs (msg : Value) : Value :=
  jsOr ((callPayload msg).getFieldD "args")
    (jsOr ((callPayload msg).getFieldD "params") (Value.vobj []))

/-- The outgoing result frame
`\x7b type: MSG.TOOL_RESULT, requestId, result \x7d`.  `JSON.stringify`
omits a property whose value is `undefined`, so an absent correlation id
produces a frame without the `requestId` key. -/
def toolResultEnvelope (requestId : Option Value) (result : Value) : Value :=
  Value.vobj
    ([("type", Value.vstr "tool_result")] ++
     (match requestId with
      | some v => [("requestId", v)]
      | none => []) ++
     [("result", result)])

/-- What one message handler run did: the frames written to the transport in
order, and the `(name, args)` pairs passed to `executeTool`. -/
structure AgentTrace where
  sent : List Value
  invoked : List (Value × Value)

/-- `_handleToolCall(msg)`: extract the correlation id, name and args, run
`executeTool`, send exactly one `tool_result` frame tagged with the id.  A
rejection of `executeTool` (never produced, see `executeTool`) would abort
the handler before the send. -/
def handleToolCall (registry : List BaseTool) (st : WSClientState)
    (msg : Value) : Except String AgentTrace :=
  match executeTool registry (callName msg) (callArgs msg) with
  | Except.error e => Except.error e
  | Except.ok out =>
      Except.ok { sent := send st (toolResultEnvelope (callCorrelationId msg) out.result),
                  invoked := [(callName msg, callArgs msg)] }

/-- The heartbeat reply `\x7b type: MSG.PONG \x7d`. -/
def pongMessage : Value :=
  Value.vobj [("type", Value.vstr "pong")]

/-- `_onMessage(raw)` after JSON parsing (a parse failure returns before any
of this): `const type = msg.type || msg.method`; a `ping` is answered with a
pong and nothing else; a `tool_call` is dispatched; `status` only logs;
every other message — including `\x7b type: "error" \x7d` frames — falls
through all branches and is ignored. -/
def onMessage (registry : List BaseTool) (st : WSClientState) (msg : Value) :
    Except String AgentTrace :=
  if isStr (jsOr (msg.getFieldD "type") (msg.getFieldD "method")) "ping" then
    Except.ok { sent := send st pongMessage, invoked := [] }
  else if isStr (jsOr (msg.getFieldD "type") (msg.getFieldD "method")) "tool_call" then
    handleToolCall registry st msg
  else
    Except.ok { sent := [], invoked := [] }

/-- The persisted `server_status` record (storage key `STORAGE_STATUS`);
`getServerStatus` spreads the stored record over these defaults. -/
structure ServerStatus where
  connected : Bool
  serverUrl : String
  lastUpdated : Nat
  pendingReconnect : Bool

/-- Defaults of `getServerStatus`. -/
def defaultServerStatus : ServerStatus :=
  { connected := false, serverUrl := "", lastUpdated := 0, pendingReconnect := false }

/-- The stored `connection_config` record: fields present in storage
override the defaults of `getConnectionConfig` by object spread. -/
structure StoredConfig where
  serverUrl : Option String
  autoReconnect : Option Bool

/-- The slice of `chrome.storage.local` this code reads and writes.
`updateServerStatus` always writes a complete `server_status` record, so a
stored status is either absent or complete.  `relayPort` abstracts the
stored value through `parseInt` (a stored value that does not parse to a
finite integer behaves like an absent one and falls to the default). -/
structure LocalStorage where
  serverStatus : Option ServerStatus
  connectionConfig : Option StoredConfig
  relayPort : Option Nat

/-- `getServerStatus()`. -/
def getServerStatus (ls : LocalStorage) : ServerStatus :=
  ls.serverStatus.getD defaultServerStatus

/-- A partial update as passed to `updateServerStatus` (object spread:
absent fields keep their current value). -/
structure StatusUpdate where
  connected : Option Bool
  serverUrl : Option String
  pendingReconnect : Option Bool

/-- `updateServerStatus(update)`: spread the update over the current record
and stamp `lastUpdated` with the current time. -/
def updateServerStatus (ls : LocalStorage) (u : StatusUpdate) (now : Nat) :
    LocalStorage :=
  { ls with serverStatus := some (
      { connected := u.connected.getD (getServerStatus ls).connected,
        serverUrl := u.serverUrl.getD (getServerStatus ls).serverUrl,
        lastUpdated := now,
        pendingReconnect := u.pendingReconnect.getD (getServerStatus ls).pendingReconnect }) }

/-- `setPendingReconnect()`:
`updateServerStatus(\x7b connected: false, pendingReconnect: true \x7d)`. -/
def setPendingReconnect (ls : LocalStorage) (now : Nat) : LocalStorage :=
  updateServerStatus ls
    { connected := some false, serverUrl := none, pendingReconnect := some true } now

/-- `DEFAULT_PORT`. -/
def DEFAULT_PORT : Nat := 18792

/-- `getRelayPort()`: the stored port when it parses to an integer in
`(0, 65535]`, else the default. -/
def getRelayPort (stored : Option Nat) : Nat :=
  match stored with
  | some n => if 0 < n ∧ n ≤ 65535 then n else DEFAULT_PORT
  | none => DEFAULT_PORT

/-- The effective connection configuration `getConnectionConfig` returns. -/
structure ConnectionConfig where
  serverUrl : String
  autoReconnect : Bool

/-- `getConnectionConfig()`: defaults
`\x7b serverUrl: ws://127.0.0.1:$\x7bport\x7d/extension, autoReconnect: true \x7d`
spread with the stored `connection_config` record. -/
def getConnectionConfig (ls : LocalStorage) : ConnectionConfig :=
  { serverUrl := ((ls.connectionConfig.bind (fun c => c.serverUrl)).getD
      ("ws://127.0.0.1:" ++ toString (getRelayPort ls.relayPort) ++ "/extension")),
    autoReconnect := ((ls.connectionConfig.bind (fun c => c.autoReconnect)).getD true) }

/-- The whole agent-side state: the in-memory client plus durable storage. -/
structure SysState where
  client : WSClientState
  storage : LocalStorage

/-- Truthiness of `this.currentUrl` in `_scheduleReconnect`'s guard. -/
def urlTruthy : Option String → Bool
  | some u => u != ""
  | none => false

/-- `_scheduleReconnect()`: bail out unless `shouldReconnect` and a truthy
`currentUrl`; otherwise (re)arm the 5 s reconnection timer whose callback
calls `connect(this.currentUrl)`. -/
def scheduleReconnect (s : SysState) : SysState :=
  if s.client.shouldReconnect && urlTruthy s.client.currentUrl then
    { s with client := { s.client with reconnectTimer := true } }
  else
    s

/-- The `ws.onclose` handler installed by `connect`: null the socket,
persist the pending-reconnect intent (`setPendingReconnect`), then
`_scheduleReconnect`.  Note the persistence step is unconditional — it does
not consult `shouldReconnect`. -/
def socketOnClose (s : SysState) (now : Nat) : SysState :=
  scheduleReconnect
    { client := { s.client with socket := none },
      storage := setPendingReconnect s.storage now }

/-- `disconnect()`: stop reconnecting, cancel any pending timer, close and
null the socket, and persist `\x7b connected: false, pendingReconnect: false \x7d`.
Closing the socket makes the transport deliver a close event afterwards
(modelled as a separate `socketOnClose` step). -/
def disconnect (s : SysState) (now : Nat) : SysState :=
  { client := { s.client with shouldReconnect := false, reconnectTimer := false,
                              socket := none },
    storage := updateServerStatus s.storage
      { connected := some false, serverUrl := none, pendingReconnect := some false } now }

/-- The hello frame `connect`'s `onopen` handler sends:
`\x7b type: MSG.HELLO, extensionId, version, tools \x7d`. -/
def helloMessage (registry : List BaseTool) (extensionId version : String) :
    Value :=
  Value.vobj
    [("type", Value.vstr "hello"),
     ("extensionId", Value.vstr extensionId),
     ("version", Value.vstr version),
     ("tools", Value.varr ((registryNames registry).map Value.vstr))]

/-- The `ws.onopen` handler: record the (now OPEN) socket, send the hello
frame, persist `\x7b connected: true, serverUrl: url \x7d`.  Returns the new
state and the frames written, in order. -/
def onOpen (registry : List BaseTool) (s : SysState)
    (url extensionId version : String) (now : Nat) : SysState × List Value :=
  ({ client := { s.client with socket := some ReadyState.OPEN },
     storage := updateServerStatus s.storage
       { connected := some true, serverUrl := some url, pendingReconnect := none } now },
   send { s.client with socket := some ReadyState.OPEN }
     (helloMessage registry extensionId version))

/-- The auto-connect tail of `main()`: read config and persisted status; if
`config.autoReconnect` and (`pendingReconnect` or `connected`), clear the
pending flag and call `wsClient.connect(config.serverUrl)`.  Returns the
url attempted (if any) and the storage afterwards. -/
def mainAutoConnect (ls : LocalStorage) (now : Nat) :
    Option String × LocalStorage :=
  if (getConnectionConfig ls).autoReconnect
      && ((getServerStatus ls).pendingReconnect || (getServerStatus ls).connected) then
    (some (getConnectionConfig ls).serverUrl,
     if (getServerStatus ls).pendingReconnect then
       updateServerStatus ls
         { connected := none, serverUrl := none, pendingReconnect := some false } now
     else ls)
  else
    (none, ls)

/-! ## Shared helper lemmas and concrete fixtures -/

/-- No branch of `executeTool` raises: the function's `try/catch` makes it
total, for any registry, name and argument object. -/
theorem executeTool_never_throws (registry : List BaseTool) (name args : Value) :
    ∃ out, executeTool registry name args = Except.ok out := by
  cases h : lookupTool registry name with
  | none =>
    exact ⟨{ result := errorResult ("未知工具: " ++ jsStringOf name), handlerRan := none },
      by simp only [executeTool, h]⟩
  | some tool =>
    cases h2 : tool.execute args with
    | ret v =>
      exact ⟨{ result := v, handlerRan := some tool.name },
        by simp only [executeTool, h, h2]⟩
    | thrown m =>
      exact ⟨{ result := errorResult m, handlerRan := some tool.name },
        by simp only [executeTool, h, h2]⟩

/-- A send on an OPEN socket writes exactly the one frame. -/
theorem send_connected (st : WSClientState) (m : Value)
    (h : isConnected st = true) : send st m = [m] := by
  simp [send, h]

/-- Every tool-result frame is typed `tool_result`. -/
theorem toolResultEnvelope_type (r : Option Value) (v : Value) :
    (toolResultEnvelope r v).getField "type" = some (Value.vstr "tool_result") := by
  cases r <;> rfl

/-- The `requestId` key of the outgoing frame is exactly the extracted
correlation id (absent when the call carried none). -/
theorem toolResultEnvelope_requestId (r : Option Value) (v : Value) :
    (toolResultEnvelope r v).getField "requestId" = r := by
  cases r <;> rfl

/-- A tool that echoes its arguments back. -/
def demoTool : BaseTool :=
  { name := "echo", execute := fun a => ToolOutcome.ret a }

/-- A tool whose handler always throws. -/
def boomTool : BaseTool :=
  { name := "boom", execute := fun _ => ToolOutcome.thrown "kaboom" }

/-- A two-tool registry built through `registerTool`. -/
def demoRegistry : List BaseTool :=
  registerTool (registerTool [] demoTool) boomTool

/-- A client with an OPEN socket, auto-reconnect armed and a remembered
url — the state after a successful `connect`. -/
def openClient : WSClientState :=
  { socket := some ReadyState.OPEN, shouldReconnect := true,
    reconnectTimer := false, currentUrl := some "ws://127.0.0.1:18792/extension" }

/-- A client whose socket is gone (`this.socket === null`). -/
def downClient : WSClientState :=
  { socket := none, shouldReconnect := true,
    reconnectTimer := false, currentUrl := some "ws://127.0.0.1:18792/extension" }

/-- Persisted storage of a connected agent. -/
def connectedStorage : LocalStorage :=
  { serverStatus := some (
      { connected := true, serverUrl := "ws://127.0.0.1:18792/extension",
        lastUpdated := 10, pendingReconnect := false }),
    connectionConfig := none, relayPort := none }

/-- Full system state of a connected agent with default storage contents. -/
def connectedSys : SysState :=
  { client := openClient, storage := connectedStorage }

/-- An inbound frame `\x7b type: "error", reason \x7d` as the Hub's error
replies are shaped. -/
def errorFrame (reason : Value) : Value :=
  Value.vobj [("type", Value.vstr "error"), ("reason", reason)]

/-- The Hub's key-conflict rejection frame. -/
def keyConflictFrame : Value :=
  errorFrame (Value.vstr "key_conflict")

/-- A concrete inbound tool call for witnesses. -/
def demoCallMsg : Value :=
  Value.vobj
    [("type", Value.vstr "tool_call"), ("requestId", Value.vstr "r-1"),
     ("payload", Value.vobj
        [("name", Value.vstr "echo"),
         ("args", Value.vobj [("x", Value.vnum 1)])])]

/-- A concrete heartbeat frame for witnesses. -/
def demoPingMsg : Value :=
  Value.vobj [("type", Value.vstr "ping")]

/-- Storage with a pending reconnect intent but auto-reconnect disabled in
the stored connection config. -/
def pendingNoAutoLS : LocalStorage :=
  { serverStatus := some (
      { connected := false, serverUrl := "", lastUpdated := 0, pendingReconnect := true }),
    connectionConfig := some { serverUrl := none, autoReconnect := some false },
    relayPort := none }

/-- Completely empty local storage (fresh install). -/
def emptyLS : LocalStorage :=
  { serverStatus := none, connectionConfig := none, relayPort := none }

/-! ## Claims -/

/-- Claim C1: for every inbound tool-call frame handled while the socket is
OPEN, `_handleToolCall` writes exactly one outgoing frame, and that frame is
a `tool_result`, whatever the registry contents and the handler's
behaviour. -/
theorem handleToolCall_exactly_one_result (registry : List BaseTool)
    (st : WSClientState) (msg : Value) (h : isConnected st = true) :
    ∃ tr, handleToolCall registry st msg = Except.ok tr ∧
      tr.sent.length = 1 ∧
      ∀ env ∈ tr.sent, env.getField "type" = some (Value.vstr "tool_result") := by
  obtain ⟨out, hout⟩ := executeTool_never_throws registry (callName msg) (callArgs msg)
  refine ⟨{ sent := send st (toolResultEnvelope (callCorrelationId msg) out.result),
            invoked := [(callName msg, callArgs msg)] }, ?_, ?_, ?_⟩
  · unfold handleToolCall
    rw [hout]
  · rw [send_connected _ _ h]
    rfl
  · intro env henv
    rw [send_connected _ _ h] at henv
    simp only [List.mem_singleton] at henv
    subst henv
    exact toolResultEnvelope_type _ _

/-- Witness for C1: a connected client dispatching a concrete call. -/
theorem handleToolCall_exactly_one_result_witness :
    isConnected openClient = true ∧
    (∃ tr, handleToolCall demoRegistry openClient demoCallMsg = Except.ok tr ∧
      tr.sent.length = 1 ∧
      ∀ env ∈ tr.sent, env.getField "type" = some (Value.vstr "tool_result")) :=
  ⟨rfl, handleToolCall_exactly_one_result demoRegistry openClient demoCallMsg rfl⟩

/-- Claim C2: when the named tool is registered and its handler throws,
`executeTool` catches the fault and returns the structured error object
carrying the message; no input makes `executeTool` escape with an uncaught
exception. -/
theorem executeTool_catches_handler_faults (registry : List BaseTool)
    (name args : Value) (tool : BaseTool) (m : String)
    (hlook : lookupTool registry name = some tool)
    (hrun : tool.execute args = ToolOutcome.thrown m) :
    executeTool registry name args =
      Except.ok { result := errorResult m, handlerRan := some tool.name } ∧
    (errorResult m).getField "isError" = some (Value.vbool true) ∧
    (errorResult m).getField "content" =
      some (Value.varr [Value.vobj
        [("type", Value.vstr "error"), ("text", Value.vstr m)]]) ∧
    (∀ n a : Value, ∃ out, executeTool registry n a = Except.ok out) := by
  refine ⟨?_, rfl, rfl, fun n a => executeTool_never_throws registry n a⟩
  simp only [executeTool, hlook, hrun]

/-- Witness for C2: the registered `boom` tool throwing at a concrete
argument. -/
theorem executeTool_catches_handler_faults_witness :
    lookupTool demoRegistry (Value.vstr "boom") = some boomTool ∧
    boomTool.execute (Value.vobj []) = ToolOutcome.thrown "kaboom" ∧
    (executeTool demoRegistry (Value.vstr "boom") (Value.vobj []) =
      Except.ok { result := errorResult "kaboom", handlerRan := some boomTool.name } ∧
    (errorResult "kaboom").getField "isError" = some (Value.vbool true) ∧
    (errorResult "kaboom").getField "content" =
      some (Value.varr [Value.vobj
        [("type", Value.vstr "error"), ("text", Value.vstr "kaboom")]]) ∧
    (∀ n a : Value, ∃ out, executeTool demoRegistry n a = Except.ok out)) :=
  ⟨rfl, rfl, executeTool_catches_handler_faults demoRegistry (Value.vstr "boom")
    (Value.vobj []) boomTool "kaboom" rfl rfl⟩

/-- Claim C3: for a name not bound in the registry, `executeTool` returns
the structured `未知工具` error naming the tool, runs no handler, and raises
nothing. -/
theorem executeTool_unknown_tool_structured_error (registry : List BaseTool)
    (name args : Value) (h : lookupTool registry name = none) :
    executeTool registry name args =
      Except.ok { result := errorResult ("未知工具: " ++ jsStringOf name),
                  handlerRan := none } ∧
    (errorResult ("未知工具: " ++ jsStringOf name)).getField "isError" =
      some (Value.vbool true) ∧
    (errorResult ("未知工具: " ++ jsStringOf name)).getField "content" =
      some (Value.varr [Value.vobj
        [("type", Value.vstr "error"),
         ("text", Value.vstr ("未知工具: " ++ jsStringOf name))]]) := by
  refine ⟨?_, rfl, rfl⟩
  unfold executeTool
  rw [h]

/-- Witness for C3: a lookup of an unregistered name. -/
theorem executeTool_unknown_tool_structured_error_witness :
    lookupTool demoRegistry (Value.vstr "no_such_tool") = none ∧
    executeTool demoRegistry (Value.vstr "no_such_tool") (Value.vobj []) =
      Except.ok { result := errorResult ("未知工具: " ++ jsStringOf (Value.vstr "no_such_tool")),
                  handlerRan := none } :=
  ⟨rfl, (executeTool_unknown_tool_structured_error demoRegistry
    (Value.vstr "no_such_tool") (Value.vobj []) rfl).1⟩

/-- Claim C4: the single result frame produced for an inbound call is
tagged with exactly the correlation id of that call
(`msg.requestId ?? msg.id`). -/
theorem toolResult_tagged_with_correlation_id (registry : List BaseTool)
    (st : WSClientState) (msg : Value) (h : isConnected st = true) :
    ∃ tr, handleToolCall registry st msg = Except.ok tr ∧
      tr.sent.length = 1 ∧
      ∀ env ∈ tr.sent, env.getField "requestId" = callCorrelationId msg := by
  obtain ⟨out, hout⟩ := executeTool_never_throws registry (callName msg) (callArgs msg)
  refine ⟨{ sent := send st (toolResultEnvelope (callCorrelationId msg) out.result),
            invoked := [(callName msg, callArgs msg)] }, ?_, ?_, ?_⟩
  · unfold handleToolCall
    rw [hout]
  · rw [send_connected _ _ h]
    rfl
  · intro env henv
    rw [send_connected _ _ h] at henv
    simp only [List.mem_singleton] at henv
    subst henv
    exact toolResultEnvelope_requestId _ _

/-- Witness for C4: the concrete call `r-1` yields a frame tagged `r-1`. -/
theorem toolResult_tagged_with_correlation_id_witness :
    isConnected openClient = true ∧
    callCorrelationId demoCallMsg = some (Value.vstr "r-1") ∧
    (∃ tr, handleToolCall demoRegistry openClient demoCallMsg = Except.ok tr ∧
      tr.sent.length = 1 ∧
      ∀ env ∈ tr.sent, env.getField "requestId" = callCorrelationId demoCallMsg) :=
  ⟨rfl, rfl, toolResult_tagged_with_correlation_id demoRegistry openClient demoCallMsg rfl⟩

/-- Claim C5 counterexample: a connected agent receives the Hub's
`key_conflict` error frame; `_onMessage` matches no branch (the message is
ignored, no state change, nothing sent), and when the Hub then closes the
connection the client schedules an automatic reconnection — it does not
enter any terminal error state. -/
theorem keyConflict_reconnect_counterexample :
    onMessage demoRegistry openClient keyConflictFrame =
      Except.ok { sent := [], invoked := [] } ∧
    (socketOnClose connectedSys 5).client.reconnectTimer = true ∧
    (socketOnClose connectedSys 5).client.shouldReconnect = true ∧
    (getServerStatus (socketOnClose connectedSys 5).storage).pendingReconnect = true :=
  ⟨rfl, rfl, rfl, rfl⟩

/-- Claim C5 (amended): the Agent Session has no KeyConflict handling at
all — an inbound `\x7b type: "error" \x7d` frame falls through every branch of
`_onMessage` and is ignored, and on the subsequent socket close the client
still schedules an automatic reconnection whenever `shouldReconnect` is set
and a target url is remembered. -/
theorem keyConflict_ignored_and_reconnect_scheduled (registry : List BaseTool)
    (st : WSClientState) (reason : Value) :
    onMessage registry st (errorFrame reason) =
      Except.ok { sent := [], invoked := [] } ∧
    ∀ (s : SysState) (now : Nat), s.client.shouldReconnect = true →
      urlTruthy s.client.currentUrl = true →
      (socketOnClose s now).client.reconnectTimer = true := by
  constructor
  · rfl
  · intro s now h1 h2
    simp [socketOnClose, scheduleReconnect, h1, h2]

/-- Witness for C5 (amended): concrete key-conflict frame and connected
state. -/
theorem keyConflict_ignored_and_reconnect_scheduled_witness :
    connectedSys.client.shouldReconnect = true ∧
    urlTruthy connectedSys.client.currentUrl = true ∧
    (onMessage [] openClient (errorFrame (Value.vstr "key_conflict")) =
      Except.ok { sent := [], invoked := [] } ∧
    (socketOnClose connectedSys 7).client.reconnectTimer = true) :=
  ⟨rfl, rfl,
    (keyConflict_ignored_and_reconnect_scheduled [] openClient (Value.vstr "key_conflict")).1,
    (keyConflict_ignored_and_reconnect_scheduled [] openClient (Value.vstr "key_conflict")).2
      connectedSys 7 rfl rfl⟩

/-- Claim C6: evaluation of the code at the claim's scenario.  A deliberate
`disconnect()` does persist `pendingReconnect = false`, and the in-memory
reconnect timer stays off after the resulting socket-close event; but that
close event unconditionally runs `setPendingReconnect()`, so the persisted
record ends with `pendingReconnect = true`, and a subsequent process restart
(`main()`) therefore attempts an automatic reconnection — contradicting the
claim (and the stated intent of `disconnect`, whose comment says the
user-initiated disconnect clears the pending-reconnect flag). -/
theorem deliberate_disconnect_pendingReconnect_resurfaces :
    (getServerStatus (disconnect connectedSys 11).storage).pendingReconnect = false ∧
    (getServerStatus (socketOnClose (disconnect connectedSys 11) 12).storage).pendingReconnect
      = true ∧
    (socketOnClose (disconnect connectedSys 11) 12).client.reconnectTimer = false ∧
    (mainAutoConnect (socketOnClose (disconnect connectedSys 11) 12).storage 13).1 =
      some "ws://127.0.0.1:18792/extension" := by
  refine ⟨rfl, rfl, rfl, by decide⟩

/-- Claim C7 counterexample: with `pendingReconnect` persisted as set but
the stored connection config carrying `autoReconnect: false`, `main()` makes
no connection attempt at startup — the claim's unconditional "immediately
attempts reconnection" fails. -/
theorem startup_autoReconnect_disabled_counterexample :
    (getServerStatus pendingNoAutoLS).pendingReconnect = true ∧
    (mainAutoConnect pendingNoAutoLS 0).1 = none :=
  ⟨rfl, rfl⟩

/-- Claim C7 (amended): at process start the Supervisor attempts a
connection to the configured server address exactly when the effective
`autoReconnect` flag (true unless a stored config disables it) is set and
the persisted record has `pendingReconnect` or `connected`; with neither
flag set no attempt is made. -/
theorem startup_reconnect_decision (ls : LocalStorage) (now : Nat) :
    (mainAutoConnect ls now).1 =
      (if (getConnectionConfig ls).autoReconnect
          && ((getServerStatus ls).pendingReconnect || (getServerStatus ls).connected)
       then some (getConnectionConfig ls).serverUrl else none) ∧
    ((getServerStatus ls).pendingReconnect = false →
      (getServerStatus ls).connected = false →
      (mainAutoConnect ls now).1 = none) := by
  constructor
  · unfold mainAutoConnect
    split
    · rfl
    · rfl
  · intro h1 h2
    simp [mainAutoConnect, h1, h2]

/-- Witness for C7 (amended): fresh storage has neither flag and produces no
attempt. -/
theorem startup_reconnect_decision_witness :
    (getServerStatus emptyLS).pendingReconnect = false ∧
    (getServerStatus emptyLS).connected = false ∧
    (mainAutoConnect emptyLS 0).1 = none :=
  ⟨rfl, rfl, (startup_reconnect_decision emptyLS 0).2 rfl rfl⟩

/-- Claim C8: an inbound frame whose `type` is `"ping"` is answered by the
pong frame alone and never reaches tool dispatch — `executeTool` is not
invoked and no `tool_result` frame is produced. -/
theorem ping_answered_with_pong_not_dispatched (registry : List BaseTool)
    (st : WSClientState) (msg : Value)
    (h : msg.getField "type" = some (Value.vstr "ping")) :
    onMessage registry st msg =
      Except.ok { sent := send st pongMessage, invoked := [] } ∧
    (isConnected st = true → send st pongMessage = [pongMessage]) ∧
    pongMessage.getField "type" = some (Value.vstr "pong") := by
  refine ⟨?_, fun hc => send_connected _ _ hc, rfl⟩
  unfold onMessage
  have hd : msg.getFieldD "type" = Value.vstr "ping" := by
    simp [Value.getFieldD, h]
  rw [hd]
  rfl

/-- Witness for C8: a concrete ping frame on a connected client. -/
theorem ping_answered_with_pong_not_dispatched_witness :
    demoPingMsg.getField "type" = some (Value.vstr "ping") ∧
    (onMessage demoRegistry openClient demoPingMsg =
      Except.ok { sent := send openClient pongMessage, invoked := [] } ∧
    (isConnected openClient = true → send openClient pongMessage = [pongMessage]) ∧
    pongMessage.getField "type" = some (Value.vstr "pong")) :=
  ⟨rfl, ping_answered_with_pong_not_dispatched demoRegistry openClient demoPingMsg rfl⟩

/-- Claim C9 counterexample: the handshake frame built by the `onopen`
handler has no `key` field — the agent identity travels in the
`extensionId` field instead. -/
theorem hello_missing_key_field_counterexample :
    (helloMessage demoRegistry "install-7" "2.0.0").getField "key" = none ∧
    (helloMessage demoRegistry "install-7" "2.0.0").getField "extensionId" =
      some (Value.vstr "install-7") :=
  ⟨rfl, rfl⟩

/-- Claim C9 (amended): on every successful connection open the session's
first (and only) frame is the `hello` envelope carrying the local install
identity in the `extensionId` field (`chrome.runtime.id`), the manifest
`version`, and `tools` listing the names of all registered tools in
registration order. -/
theorem hello_first_message_contents (registry : List BaseTool) (s : SysState)
    (url extensionId version : String) (now : Nat) :
    (onOpen registry s url extensionId version now).2 =
      [helloMessage registry extensionId version] ∧
    (helloMessage registry extensionId version).getField "type" =
      some (Value.vstr "hello") ∧
    (helloMessage registry extensionId version).getField "extensionId" =
      some (Value.vstr extensionId) ∧
    (helloMessage registry extensionId version).getField "version" =
      some (Value.vstr version) ∧
    (helloMessage registry extensionId version).getField "tools" =
      some (Value.varr ((registryNames registry).map Value.vstr)) :=
  ⟨rfl, rfl, rfl, rfl, rfl⟩

/-- Claim C10: `send` on a state whose socket is absent or not OPEN writes
nothing and raises nothing, and a tool call completed in such a state
produces a result frame that is silently discarded (the handler still
returns normally with an empty transmission). -/
theorem send_silently_drops_when_not_open (st : WSClientState) (msg : Value)
    (h : isConnected st = false) :
    send st msg = [] ∧
    (∀ (registry : List BaseTool) (call : Value),
      ∃ tr, handleToolCall registry st call = Except.ok tr ∧ tr.sent = []) := by
  constructor
  · simp [send, h]
  · intro registry call
    obtain ⟨out, hout⟩ := executeTool_never_throws registry (callName call) (callArgs call)
    refine ⟨{ sent := send st (toolResultEnvelope (callCorrelationId call) out.result),
              invoked := [(callName call, callArgs call)] }, ?_, ?_⟩
    · unfold handleToolCall
      rw [hout]
    · simp [send, h]

/-- Witness for C10: a client whose socket is gone discards a concrete
completed result. -/
theorem send_silently_drops_when_not_open_witness :
    isConnected downClient = false ∧
    (send downClient pongMessage = [] ∧
    (∀ (registry : List BaseTool) (call : Value),
      ∃ tr, handleToolCall registry downClient call = Except.ok tr ∧ tr.sent = [])) :=
  ⟨rfl, send_silently_drops_when_not_open downClient pongMessage rfl⟩
